import Mathlib

/-!
Verification of the retirement-calculator numeric kernel and projection engine.

The numeric kernel (`CalcUtilitiesClass.mjs`) and projection engine
(`SavingsCalculatorClass.mjs`) are shallowly embedded below.  JS numbers are
modelled as real numbers; integer-valued quantities (ages, year counts, series
indices) are modelled as `ℤ` and `Math.pow` with an integer exponent as `zpow`.
`Math.floor` is `Int.floor`, `Math.round` (half toward +∞) is `round`, and the
JS remainder operator `%` (sign of the dividend) is `Int.tmod`.

Lean's convention `x / 0 = 0` differs from JS (IEEE-754) division, which
produces `Infinity`/`NaN` on a zero denominator.  The one division in the
source that can receive a zero denominator on spec-valid inputs is the
unguarded division inside `savingsPayout`; it is modelled twice: once with
Lean's total division (`savingsPayout`, adequate where the denominator is
non-zero) and once over the `JSNum` type (`savingsPayoutJS`), which records
the IEEE outcome — including the sign of the zero denominator, which the
source computes as `+0` for a non-negative net rate and `-0` for a negative
one.  The engine's `calculateSavingsDuration`, whose branch test consumes
that division's result, is built on `savingsPayoutJS` with the JS comparison
semantics (`NaN`/`+Infinity` compare false under `<`).
-/

noncomputable section

namespace RetirementCalc

/-- Result record of `savingsPayoutDuration`: whole years and remainder months. -/
structure Duration where
  years : ℤ
  months : ℤ

/-- `safeDivide` (CalcUtilitiesClass.mjs lines 9-12): division returning 0 when
the denominator is 0. -/
def safeDivide (numerator denominator : ℝ) : ℝ :=
  if denominator = 0 then 0 else numerator / denominator

/-- `futureValue` (CalcUtilitiesClass.mjs lines 142-144): `p * (1+r)^y`. -/
def futureValue (p r : ℝ) (y : ℤ) : ℝ :=
  p * (1 + r) ^ y

/-- `geometricSeries` (CalcUtilitiesClass.mjs lines 175-184): sum of powers of
`r` from index `a` to `n`, computed as the closed-form total from 0 to `n`
minus the excluded closed-form sum from 0 to `a-1` when `a > 0`, with the
`r = 1` constant series special-cased to `n - a + 1`. -/
def geometricSeries (a : ℤ) (r : ℝ) (n : ℤ) : ℝ :=
  if r = 1 then ((n - a + 1 : ℤ) : ℝ)
  else
    let totalSum := (r ^ (n + 1) - 1) / (r - 1)
    let excludedSum := if 0 < a then (r ^ a - 1) / (r - 1) else 0
    totalSum - excludedSum

/-- `savingsPayout` (CalcUtilitiesClass.mjs lines 119-123), with Lean's total
division convention (the source divides with the raw `/` operator). -/
def savingsPayout (p r : ℝ) (y : ℤ) : ℝ :=
  futureValue p r (y - 1) / geometricSeries 0 (1 + r) (y - 1)

/-- A JS number outcome: a finite real or one of the IEEE-754 special values. -/
inductive JSNum where
  | fin : ℝ → JSNum
  | posInf : JSNum
  | negInf : JSNum
  | nan : JSNum

/-- `savingsPayout` with the faithful JS semantics of its single division
(CalcUtilitiesClass.mjs line 121): the denominator `geometricSeries 0 (1+r)
(y-1)` is not guarded, so a zero denominator produces an IEEE special value.
Whenever that denominator is the real number 0, the source has computed it
either as the integer `+0` on the `ratio = 1` path (net rate `r = 0`) or as
`(pow(q,y) - 1)/(q - 1) = +0/r` on the closed-form path, so the IEEE sign of
the zero is the sign of `r`; IEEE division then yields `NaN` for a zero
numerator and otherwise an infinity whose sign combines the signs of the
numerator and of the zero denominator. -/
def savingsPayoutJS (p r : ℝ) (y : ℤ) : JSNum :=
  let numerator := futureValue p r (y - 1)
  let denominator := geometricSeries 0 (1 + r) (y - 1)
  if denominator = 0 then
    if numerator = 0 then JSNum.nan
    else if 0 ≤ r then
      if 0 < numerator then JSNum.posInf else JSNum.negInf
    else
      if 0 < numerator then JSNum.negInf else JSNum.posInf
  else JSNum.fin (numerator / denominator)

/-- The JS comparison `x < y` of a JS number against a finite number: any
comparison involving `NaN` is false, `+Infinity < y` is false and
`-Infinity < y` is true. -/
def JSNum.ltFin : JSNum → ℝ → Prop
  | JSNum.fin x, y => x < y
  | JSNum.posInf, _ => False
  | JSNum.negInf, _ => True
  | JSNum.nan, _ => False

instance : (x : JSNum) → (y : ℝ) → Decidable (JSNum.ltFin x y)
  | JSNum.fin x, y => inferInstanceAs (Decidable (x < y))
  | JSNum.posInf, _ => inferInstanceAs (Decidable False)
  | JSNum.negInf, _ => inferInstanceAs (Decidable True)
  | JSNum.nan, _ => inferInstanceAs (Decidable False)

/-- The JS comparison `x >= y` of a JS number against a finite number: any
comparison involving `NaN` is false, `+Infinity >= y` is true and
`-Infinity >= y` is false. -/
def JSNum.geFin : JSNum → ℝ → Prop
  | JSNum.fin x, y => y ≤ x
  | JSNum.posInf, _ => True
  | JSNum.negInf, _ => False
  | JSNum.nan, _ => False

/-- IEEE division of a JS number by a positive finite number (here only 12):
a finite value divides exactly, the infinities keep their sign, `NaN` stays
`NaN`. -/
def JSNum.divPos : JSNum → ℝ → JSNum
  | JSNum.fin x, c => JSNum.fin (x / c)
  | JSNum.posInf, _ => JSNum.posInf
  | JSNum.negInf, _ => JSNum.negInf
  | JSNum.nan, _ => JSNum.nan

/-- `savingsPayoutDuration` (CalcUtilitiesClass.mjs lines 64-94): how long a
lump sum lasts under a fixed withdrawal, interest and inflation.  Returns the
`{years: 0, months: 0}` sentinel when the feasibility gate trips, otherwise
converts the logarithmic closed-form duration to whole years and months. -/
def savingsPayoutDuration (savings withdrawal interestRate inflationRate : ℝ) : Duration :=
  let base := (1 + interestRate) / (1 + inflationRate)
  let adjustedGrowth := base - 1
  let numerator := savings * adjustedGrowth
  let denominator := withdrawal * base
  if denominator = 0 ∨ base ≤ 0 ∨ base = 1 ∨ numerator ≥ denominator then
    ⟨0, 0⟩
  else
    let durationYrs := (-1 * Real.log (1 - numerator / denominator)) / Real.log base
    let totalMonths := round (durationYrs * 12)
    ⟨⌊durationYrs⌋, Int.tmod totalMonths 12⟩

/-- The exact real-valued `durationYrs` computed inside `savingsPayoutDuration`
(CalcUtilitiesClass.mjs lines 87-88) before conversion to years and months. -/
def durationYears (savings withdrawal interestRate inflationRate : ℝ) : ℝ :=
  let base := (1 + interestRate) / (1 + inflationRate)
  (-1 * Real.log (1 - savings * (base - 1) / (withdrawal * base))) / Real.log base

/-- The feasibility gate of `savingsPayoutDuration` (CalcUtilitiesClass.mjs
lines 77-82). -/
def payoutGate (savings withdrawal interestRate inflationRate : ℝ) : Prop :=
  let base := (1 + interestRate) / (1 + inflationRate)
  withdrawal * base = 0 ∨ base ≤ 0 ∨ base = 1 ∨
    savings * (base - 1) ≥ withdrawal * base

instance (s w i f : ℝ) : Decidable (payoutGate s w i f) := by
  unfold payoutGate
  exact inferInstance

/-- Shared configuration of the savings calculator (`initialValues`), with the
destructuring defaults of the source already resolved by the caller. -/
structure InitialValues where
  annualIncomeIncreasePercent : ℝ
  annualInflationPercent : ℝ
  annualPostRetirementReturnPercent : ℝ
  annualRetirementSavingsReturnPercent : ℝ
  endOfRetirementAge : ℤ
  minAnnualRetirementIncomePercent : ℝ
  normalRetirementAge : ℤ
  withdrawalAge : ℤ

/-- The fields of the `input` record consumed by `SavingsCalculatorClass`. -/
structure CalcInput where
  annualIncome : ℝ
  currentAge : ℤ
  currentSavings : ℝ
  retirementAge : ℤ

/-- `calculateTotalSavings` (SavingsCalculatorClass.mjs lines 17-48): future
value of the principal plus, for a positive contribution stream, the stream's
future value under combined return and income growth. -/
def calculateTotalSavings (iv : InitialValues) (currentSavings totalContributions : ℝ)
    (years : ℤ) : ℝ :=
  let principalFutureValue :=
    futureValue currentSavings iv.annualRetirementSavingsReturnPercent years
  let adjustedContributions :=
    if 0 < totalContributions then
      totalContributions *
        geometricSeries 1
          ((1 + iv.annualRetirementSavingsReturnPercent) *
            (1 + iv.annualIncomeIncreasePercent)) years
    else 0
  principalFutureValue + adjustedContributions

/-- `getMaximumRetirementAge` (SavingsCalculatorClass.mjs lines 57-64):
clamps the requested retirement age into the policy band. -/
def getMaximumRetirementAge (iv : InitialValues) (retirementAge : ℤ) : ℤ :=
  min iv.withdrawalAge (max iv.normalRetirementAge retirementAge)

/-- `calculateProjectedRetirementSavings` (SavingsCalculatorClass.mjs lines
76-98): phase-A working-years projection with contributions, then an optional
phase-B contribution-free growth up to the effective retirement age, combined
with `max`. -/
def calculateProjectedRetirementSavings (iv : InitialValues) (input : CalcInput)
    (totalContributions : ℝ) : ℝ :=
  let workingYears := input.retirementAge - input.currentAge
  let workingSavings :=
    calculateTotalSavings iv input.currentSavings totalContributions workingYears
  let nonWorkingYearsUntilRetirement :=
    getMaximumRetirementAge iv input.retirementAge - (input.currentAge + workingYears)
  let nonWorkingSavings :=
    if 0 < nonWorkingYearsUntilRetirement then
      calculateTotalSavings iv workingSavings 0 nonWorkingYearsUntilRetirement
    else 0
  max workingSavings nonWorkingSavings

/-- Result record of `calculateSavingsDuration`.  The projected incomes are JS
numbers: at a degenerate horizon the unguarded payout division propagates an
IEEE special value into them. -/
structure SavingsDurationResult where
  months : ℤ
  projectedMonthlyIncome : JSNum
  projectedYearlyIncome : JSNum
  years : ℤ

/-- `calculateSavingsDuration` (SavingsCalculatorClass.mjs lines 111-157):
either the even sustainable payout over the whole horizon, or, when that falls
short of the target minimum income, the duration for which the target income
itself can be sustained.  The even payout is the JS value of the unguarded
`savingsPayout` division and the branch test is the JS comparison
`evenlyProjectedYearlyIncome < minAnnualRetirementIncome` (false for `NaN` and
`+Infinity`), so a degenerate horizon takes the even-payout branch. -/
def calculateSavingsDuration (iv : InitialValues) (input : CalcInput)
    (totalSavingsAtRetirement : ℝ) : SavingsDurationResult :=
  let minAnnualRetirementIncome :=
    futureValue input.annualIncome iv.annualIncomeIncreasePercent
        (input.retirementAge - input.currentAge) *
      max 0 iv.minAnnualRetirementIncomePercent
  let years0 := iv.endOfRetirementAge - getMaximumRetirementAge iv input.retirementAge
  let evenlyProjectedYearlyIncome :=
    savingsPayoutJS totalSavingsAtRetirement
      (iv.annualPostRetirementReturnPercent - iv.annualInflationPercent) years0
  if JSNum.ltFin evenlyProjectedYearlyIncome minAnnualRetirementIncome then
    let d := savingsPayoutDuration totalSavingsAtRetirement minAnnualRetirementIncome
      iv.annualPostRetirementReturnPercent iv.annualInflationPercent
    ⟨d.months, JSNum.divPos (JSNum.fin minAnnualRetirementIncome) 12,
      JSNum.fin minAnnualRetirementIncome, d.years⟩
  else
    ⟨0, JSNum.divPos evenlyProjectedYearlyIncome 12,
      evenlyProjectedYearlyIncome, years0⟩

/-! ### Shared helper lemmas -/

/-- When the feasibility gate trips, `savingsPayoutDuration` returns the
`{years: 0, months: 0}` sentinel. -/
lemma savingsPayoutDuration_of_gate (s w i f : ℝ) (h : payoutGate s w i f) :
    savingsPayoutDuration s w i f = ⟨0, 0⟩ := by
  unfold savingsPayoutDuration
  unfold payoutGate at h
  simp only at h ⊢
  rw [if_pos h]

/-- When the feasibility gate does not trip, `savingsPayoutDuration` floors and
rounds the exact logarithmic duration `durationYears`. -/
lemma savingsPayoutDuration_of_not_gate (s w i f : ℝ) (h : ¬ payoutGate s w i f) :
    savingsPayoutDuration s w i f =
      ⟨⌊durationYears s w i f⌋, Int.tmod (round (durationYears s w i f * 12)) 12⟩ := by
  unfold savingsPayoutDuration
  unfold payoutGate at h
  unfold durationYears
  simp only at h ⊢
  rw [if_neg h]

/-- The geometric series from index 1 to 0 is empty: both branches of the
source compute 0. -/
lemma geometricSeries_one_zero (q : ℝ) : geometricSeries 1 q 0 = 0 := by
  unfold geometricSeries
  split_ifs with h h1
  · norm_num
  · simp only [zero_add, zpow_one]
    norm_num
  · exact absurd (by norm_num) h1

/-- `calculateTotalSavings` over zero years with no contributions is the
identity on the balance. -/
lemma calculateTotalSavings_zero_years (iv : InitialValues) (cs tc : ℝ) :
    calculateTotalSavings iv cs tc 0 = cs := by
  unfold calculateTotalSavings futureValue
  simp only [zpow_zero, mul_one, geometricSeries_one_zero, mul_zero, ite_self, add_zero]

/-! ### Claims -/

/-- C8: `savingsPayout p r y` returns `futureValue p r (y-1)` divided by
`geometricSeries 0 (1+r) (y-1)`, where `futureValue p r y = p * (1+r)^y`. -/
theorem claim_C8 (p r : ℝ) (y : ℤ) :
    savingsPayout p r y = futureValue p r (y - 1) / geometricSeries 0 (1 + r) (y - 1) ∧
    futureValue p r (y - 1) = p * (1 + r) ^ (y - 1) :=
  ⟨rfl, rfl⟩

/-- C6: `calculateTotalSavings` is `futureValue` of the balance plus, only for a
positive contribution, the contribution times the geometric series from index 1
with ratio `(1+savingsReturn)*(1+incomeGrowth)`; a non-positive contribution
contributes nothing, so the result is then exactly the balance's future value. -/
theorem claim_C6 (iv : InitialValues) (cs tc : ℝ) (y : ℤ) :
    calculateTotalSavings iv cs tc y =
      futureValue cs iv.annualRetirementSavingsReturnPercent y +
        (if 0 < tc then
          tc * geometricSeries 1
            ((1 + iv.annualRetirementSavingsReturnPercent) *
              (1 + iv.annualIncomeIncreasePercent)) y
        else 0) ∧
    (tc ≤ 0 →
      calculateTotalSavings iv cs tc y =
        futureValue cs iv.annualRetirementSavingsReturnPercent y) := by
  constructor
  · rfl
  · intro h
    unfold calculateTotalSavings
    rw [if_neg (not_lt.mpr h), add_zero]

/-- Witness for C6 at the spec's example: zero contribution over ten years at
an 8% return reduces to pure compounding of the balance. -/
theorem claim_C6_witness :
    (0 : ℝ) ≤ 0 ∧
    calculateTotalSavings ⟨0, 0, 0, 8 / 100, 95, 0, 65, 75⟩ 100000 0 10 =
      futureValue 100000 (8 / 100) 10 :=
  ⟨le_refl 0, (claim_C6 ⟨0, 0, 0, 8 / 100, 95, 0, 65, 75⟩ 100000 0 10).2 (le_refl 0)⟩

/-- C7: past the feasibility gate, `savingsPayoutDuration` returns the floor of
the logarithmic duration as years and the rounded total months modulo 12 as
months. -/
theorem claim_C7 (s w i f : ℝ)
    (h : ¬ (w * ((1 + i) / (1 + f)) = 0 ∨ (1 + i) / (1 + f) ≤ 0 ∨
            (1 + i) / (1 + f) = 1 ∨
            s * ((1 + i) / (1 + f) - 1) ≥ w * ((1 + i) / (1 + f)))) :
    savingsPayoutDuration s w i f =
      ⟨⌊(-1 * Real.log (1 - s * ((1 + i) / (1 + f) - 1) /
            (w * ((1 + i) / (1 + f))))) / Real.log ((1 + i) / (1 + f))⌋,
       Int.tmod
         (round ((-1 * Real.log (1 - s * ((1 + i) / (1 + f) - 1) /
              (w * ((1 + i) / (1 + f))))) / Real.log ((1 + i) / (1 + f)) * 12)) 12⟩ :=
  savingsPayoutDuration_of_not_gate s w i f h

/-- Witness for C7 at savings 100, withdrawal 100, 100% interest, 0% inflation
(base 2), which passes the feasibility gate. -/
theorem claim_C7_witness :
    savingsPayoutDuration 100 100 1 0 =
      ⟨⌊(-1 * Real.log (1 - 100 * ((1 + 1) / (1 + 0) - 1) /
            (100 * ((1 + 1) / (1 + 0))))) / Real.log ((1 + 1) / (1 + 0))⌋,
       Int.tmod
         (round ((-1 * Real.log (1 - 100 * ((1 + 1) / (1 + 0) - 1) /
              (100 * ((1 + 1) / (1 + 0))))) / Real.log ((1 + 1) / (1 + 0)) * 12)) 12⟩ :=
  claim_C7 100 100 1 0 (by norm_num)

/-- A JS number that compares `>= y` does not compare `< y` (`NaN` satisfies
neither). -/
lemma JSNum.not_ltFin_of_geFin : ∀ (x : JSNum) (y : ℝ),
    JSNum.geFin x y → ¬ JSNum.ltFin x y
  | JSNum.fin _, _, h => not_lt.mpr h
  | JSNum.posInf, _, _ => fun h => h
  | JSNum.negInf, _, h => h.elim
  | JSNum.nan, _, h => h.elim

/-- C4 (amended): `calculateSavingsDuration` targets the income-replacement
minimum grown to retirement over the horizon from the effective retirement age
to the end-of-retirement age; a JS even payout that is `>=` the target takes
the even-payout branch, which carries that payout as yearly income with
`years = horizon`, `months = 0`; but the branch dichotomy is governed by the
code's JS test `payout < target`, which is also false for the `NaN` payout of
a zero lump sum at a degenerate zero-denominator horizon, so the fallback
(yearly income = target, duration from `savingsPayoutDuration`) runs exactly
when `payout < target` holds, not merely when `payout >= target` fails; in
both branches monthly income is the yearly income divided by 12. -/
theorem claim_C4_amended (iv : InitialValues) (input : CalcInput) (lump : ℝ) :
    let targetMinimumIncome :=
      futureValue input.annualIncome iv.annualIncomeIncreasePercent
          (input.retirementAge - input.currentAge) *
        max 0 iv.minAnnualRetirementIncomePercent
    let horizon := iv.endOfRetirementAge - getMaximumRetirementAge iv input.retirementAge
    let evenPayout :=
      savingsPayoutJS lump
        (iv.annualPostRetirementReturnPercent - iv.annualInflationPercent) horizon
    (JSNum.geFin evenPayout targetMinimumIncome →
      calculateSavingsDuration iv input lump =
        ⟨0, JSNum.divPos evenPayout 12, evenPayout, horizon⟩) ∧
    (¬ JSNum.ltFin evenPayout targetMinimumIncome →
      calculateSavingsDuration iv input lump =
        ⟨0, JSNum.divPos evenPayout 12, evenPayout, horizon⟩) ∧
    (JSNum.ltFin evenPayout targetMinimumIncome →
      calculateSavingsDuration iv input lump =
        ⟨(savingsPayoutDuration lump targetMinimumIncome
            iv.annualPostRetirementReturnPercent iv.annualInflationPercent).months,
         JSNum.divPos (JSNum.fin targetMinimumIncome) 12, JSNum.fin targetMinimumIncome,
         (savingsPayoutDuration lump targetMinimumIncome
            iv.annualPostRetirementReturnPercent iv.annualInflationPercent).years⟩) := by
  intro targetMinimumIncome horizon evenPayout
  have heven : ¬ JSNum.ltFin evenPayout targetMinimumIncome →
      calculateSavingsDuration iv input lump =
        ⟨0, JSNum.divPos evenPayout 12, evenPayout, horizon⟩ := by
    intro h
    unfold calculateSavingsDuration
    rw [if_neg h]
  refine ⟨fun hge => heven (JSNum.not_ltFin_of_geFin _ _ hge), heven, ?_⟩
  intro h
  unfold calculateSavingsDuration
  rw [if_pos h]

/-- Witness for C4 (amended), exercising both branches: with a zero
replacement target the finite zero payout is `>=` the target and the
even-payout branch reports it over the 30-year horizon; with a full
replacement target the zero payout falls short and the fallback reports the
target income 1. -/
theorem claim_C4_witness :
    calculateSavingsDuration ⟨0, 0, 0, 0, 95, 0, 65, 75⟩ ⟨1, 65, 0, 65⟩ 0 =
      ⟨0, JSNum.fin 0, JSNum.fin 0, 30⟩ ∧
    calculateSavingsDuration ⟨0, 0, 0, 0, 95, 1, 65, 75⟩ ⟨1, 65, 0, 65⟩ 0 =
      ⟨0, JSNum.fin (1 / 12), JSNum.fin 1, 0⟩ := by
  constructor
  · have h := (claim_C4_amended ⟨0, 0, 0, 0, 95, 0, 65, 75⟩ ⟨1, 65, 0, 65⟩ 0).1
      (by norm_num [savingsPayoutJS, futureValue, geometricSeries,
        getMaximumRetirementAge, JSNum.geFin])
    rw [h]
    norm_num [savingsPayoutJS, futureValue, geometricSeries,
      getMaximumRetirementAge, JSNum.divPos]
  · have h := (claim_C4_amended ⟨0, 0, 0, 0, 95, 1, 65, 75⟩ ⟨1, 65, 0, 65⟩ 0).2.2
      (by norm_num [savingsPayoutJS, futureValue, geometricSeries,
        getMaximumRetirementAge, JSNum.ltFin])
    rw [h]
    have hspd : savingsPayoutDuration 0
        (futureValue 1 0 ((65 : ℤ) - 65) * max 0 1) 0 0 = ⟨0, 0⟩ :=
      savingsPayoutDuration_of_gate _ _ _ _ (Or.inr (Or.inr (Or.inl (by norm_num))))
    rw [hspd]
    norm_num [futureValue, JSNum.divPos]

/-- Counterexample to C4 as stated: with a zero lump sum at the degenerate
horizon 0 (end-of-retirement age = withdrawal age = 75, requested age 75), the
even payout is the JS value `NaN`, which is not `>=` the target income 1, yet
the function takes the even-payout branch and returns `NaN` incomes — not the
fallback record with yearly income 1 that the claim's "otherwise" clause
mandates. -/
theorem claim_C4_counterexample :
    savingsPayoutJS 0 (0 - 0) 0 = JSNum.nan ∧
    ¬ JSNum.geFin (savingsPayoutJS 0 (0 - 0) 0)
      (futureValue 1 0 ((75 : ℤ) - 75) * max 0 1) ∧
    calculateSavingsDuration ⟨0, 0, 0, 0, 75, 1, 65, 75⟩ ⟨1, 75, 0, 75⟩ 0 =
      ⟨0, JSNum.nan, JSNum.nan, 0⟩ ∧
    calculateSavingsDuration ⟨0, 0, 0, 0, 75, 1, 65, 75⟩ ⟨1, 75, 0, 75⟩ 0 ≠
      ⟨(savingsPayoutDuration 0 (futureValue 1 0 ((75 : ℤ) - 75) * max 0 1) 0 0).months,
        JSNum.divPos (JSNum.fin (futureValue 1 0 ((75 : ℤ) - 75) * max 0 1)) 12,
        JSNum.fin (futureValue 1 0 ((75 : ℤ) - 75) * max 0 1),
        (savingsPayoutDuration 0 (futureValue 1 0 ((75 : ℤ) - 75) * max 0 1) 0 0).years⟩ := by
  have hnan : savingsPayoutJS 0 (0 - 0) 0 = JSNum.nan := by
    unfold savingsPayoutJS futureValue geometricSeries
    norm_num
  have hres : calculateSavingsDuration ⟨0, 0, 0, 0, 75, 1, 65, 75⟩ ⟨1, 75, 0, 75⟩ 0 =
      ⟨0, JSNum.nan, JSNum.nan, 0⟩ := by
    unfold calculateSavingsDuration
    have hmax : getMaximumRetirementAge ⟨0, 0, 0, 0, 75, 1, 65, 75⟩ 75 = 75 := by
      unfold getMaximumRetirementAge
      decide
    simp only [hmax, show (75 : ℤ) - 75 = 0 from by decide, hnan]
    rw [if_neg (show ¬ JSNum.ltFin JSNum.nan (futureValue 1 0 0 * max 0 1) from
      fun h => h)]
    rfl
  refine ⟨hnan, ?_, hres, ?_⟩
  · rw [hnan]
    exact fun h => h
  · rw [hres]
    intro h
    exact JSNum.noConfusion (congrArg SavingsDurationResult.projectedYearlyIncome h)

/-- C5 (amended): the projected retirement savings are the maximum of the
phase-A working-years projection and the phase-A-then-phase-B projection, with
phase B contributing 0 whenever the remaining years are non-positive; when
`currentAge = retirementAge` the result is the maximum of the unchanged current
balance and (when the effective retirement age exceeds the requested age) its
phase-B-grown value — the grown value alone only when growth does not shrink
the balance. -/
theorem claim_C5_amended (iv : InitialValues) (input : CalcInput) (tc : ℝ) :
    calculateProjectedRetirementSavings iv input tc =
      max (calculateTotalSavings iv input.currentSavings tc
            (input.retirementAge - input.currentAge))
        (if 0 < getMaximumRetirementAge iv input.retirementAge -
              (input.currentAge + (input.retirementAge - input.currentAge)) then
          calculateTotalSavings iv
            (calculateTotalSavings iv input.currentSavings tc
              (input.retirementAge - input.currentAge)) 0
            (getMaximumRetirementAge iv input.retirementAge -
              (input.currentAge + (input.retirementAge - input.currentAge)))
        else 0) ∧
    (input.currentAge = input.retirementAge →
      calculateProjectedRetirementSavings iv input tc =
        max input.currentSavings
          (if 0 < getMaximumRetirementAge iv input.retirementAge -
                input.retirementAge then
            calculateTotalSavings iv input.currentSavings 0
              (getMaximumRetirementAge iv input.retirementAge - input.retirementAge)
          else 0)) := by
  constructor
  · rfl
  · intro h
    unfold calculateProjectedRetirementSavings
    simp only [h, sub_self, add_zero, calculateTotalSavings_zero_years]

/-- Witness for C5: with equal current and requested retirement age 60, normal
retirement age 65 and withdrawal age 75, the result is the stated maximum. -/
theorem claim_C5_witness :
    calculateProjectedRetirementSavings ⟨0, 0, 0, 0, 95, 0, 65, 75⟩ ⟨0, 60, 100, 60⟩ 0 =
      max 100
        (if 0 < getMaximumRetirementAge ⟨0, 0, 0, 0, 95, 0, 65, 75⟩ 60 - 60 then
          calculateTotalSavings ⟨0, 0, 0, 0, 95, 0, 65, 75⟩ 100 0
            (getMaximumRetirementAge ⟨0, 0, 0, 0, 95, 0, 65, 75⟩ 60 - 60)
        else 0) :=
  (claim_C5_amended ⟨0, 0, 0, 0, 95, 0, 65, 75⟩ ⟨0, 60, 100, 60⟩ 0).2 rfl

/-- Counterexample to C5 as stated: with a −50% savings return, current age =
requested retirement age 60 and effective retirement age 65 (> 60), the
function returns the unchanged balance 100, not its phase-B-grown value 25/8,
so "the result is its phase-B-grown value when the effective retirement age
exceeds the requested age" fails. -/
theorem claim_C5_counterexample :
    getMaximumRetirementAge ⟨0, 0, 0, -(1 / 2), 95, 0, 65, 75⟩ 60 = 65 ∧
    calculateTotalSavings ⟨0, 0, 0, -(1 / 2), 95, 0, 65, 75⟩ 100 0 5 = 25 / 8 ∧
    calculateProjectedRetirementSavings ⟨0, 0, 0, -(1 / 2), 95, 0, 65, 75⟩
      ⟨0, 60, 100, 60⟩ 0 = 100 ∧
    (100 : ℝ) ≠ 25 / 8 := by
  have hmax : getMaximumRetirementAge ⟨0, 0, 0, -(1 / 2), 95, 0, 65, 75⟩ 60 = 65 := by
    unfold getMaximumRetirementAge
    decide
  have hgrow : calculateTotalSavings ⟨0, 0, 0, -(1 / 2), 95, 0, 65, 75⟩ 100 0 5 = 25 / 8 := by
    unfold calculateTotalSavings futureValue
    norm_num
  refine ⟨hmax, hgrow, ?_, by norm_num⟩
  unfold calculateProjectedRetirementSavings
  simp only [sub_self, add_zero, calculateTotalSavings_zero_years, hmax]
  rw [if_pos (by norm_num), show (65 : ℤ) - 60 = 5 from by norm_num, hgrow]
  norm_num

/-- C1 (amended): `safeDivide` returns 0 on a zero denominator, and
`savingsPayoutDuration` returns the `{years: 0, months: 0}` sentinel whenever
its denominator `withdrawal * base` is zero; but `savingsPayout` does not guard
its division, and at `years = 0` (zero geometric-series denominator) with a
positive principal and zero rate the JS division yields +Infinity, not the 0
sentinel. -/
theorem claim_C1_amended :
    (∀ x : ℝ, safeDivide x 0 = 0) ∧
    (∀ s w i f : ℝ, w * ((1 + i) / (1 + f)) = 0 →
      savingsPayoutDuration s w i f = ⟨0, 0⟩) ∧
    (∀ p : ℝ, 0 < p → savingsPayoutJS p 0 0 = JSNum.posInf) := by
  refine ⟨?_, ?_, ?_⟩
  · intro x
    unfold safeDivide
    rw [if_pos rfl]
  · intro s w i f h
    exact savingsPayoutDuration_of_gate s w i f (Or.inl h)
  · intro p hp
    unfold savingsPayoutJS futureValue geometricSeries
    norm_num
    rw [if_neg (ne_of_gt hp), if_pos hp]

/-- Witness for C1 (amended) at concrete inputs. -/
theorem claim_C1_witness :
    safeDivide 5 0 = 0 ∧
    savingsPayoutDuration 1 0 1 0 = ⟨0, 0⟩ ∧
    savingsPayoutJS 100 0 0 = JSNum.posInf :=
  ⟨claim_C1_amended.1 5, claim_C1_amended.2.1 1 0 1 0 (by norm_num),
    claim_C1_amended.2.2 100 (by norm_num)⟩

/-- Counterexample to C1 as stated: at `years = 0` the geometric-series
denominator of `savingsPayout` is exactly 0, and the unguarded JS division
returns +Infinity for principal 100 and rate 0 — an infinite value, not the
sentinel 0. -/
theorem claim_C1_counterexample :
    geometricSeries 0 (1 + 0) ((0 : ℤ) - 1) = 0 ∧
    savingsPayoutJS 100 0 0 = JSNum.posInf ∧
    JSNum.posInf ≠ JSNum.fin 0 := by
  refine ⟨?_, ?_, fun h => JSNum.noConfusion h⟩
  · unfold geometricSeries
    norm_num
  · unfold savingsPayoutJS futureValue geometricSeries
    norm_num

/-- C3 (amended): `savingsPayoutDuration` returns `{years: 0, months: 0}` if
and only if the feasibility gate trips, or the exact logarithmic duration also
floors to 0 whole years and rounds to a multiple of 12 total months (in
particular any feasible duration below 1/24 year still yields the sentinel
value). -/
theorem claim_C3_amended (s w i f : ℝ) :
    savingsPayoutDuration s w i f = ⟨0, 0⟩ ↔
      (payoutGate s w i f ∨
        (⌊durationYears s w i f⌋ = 0 ∧
          Int.tmod (round (durationYears s w i f * 12)) 12 = 0)) := by
  by_cases hg : payoutGate s w i f
  · simp [savingsPayoutDuration_of_gate s w i f hg, hg]
  · rw [savingsPayoutDuration_of_not_gate s w i f hg]
    simp [hg, Duration.mk.injEq]

/-- Past the gate, the exact logarithmic duration is non-negative for a
non-negative savings balance and withdrawal. -/
lemma durationYears_nonneg (s w i f : ℝ) (hs : 0 ≤ s) (hw : 0 ≤ w)
    (hg : ¬ payoutGate s w i f) : 0 ≤ durationYears s w i f := by
  simp only [payoutGate, ge_iff_le, not_or, not_le] at hg
  obtain ⟨hden, hbpos, hb1, hnd⟩ := hg
  set b := (1 + i) / (1 + f) with hbdef
  have hwb : 0 < w * b := lt_of_le_of_ne (mul_nonneg hw (le_of_lt hbpos)) (Ne.symm hden)
  have hY : durationYears s w i f =
      (-1 * Real.log (1 - s * (b - 1) / (w * b))) / Real.log b := rfl
  rw [hY]
  rcases lt_or_gt_of_ne hb1 with hblt | hbgt
  · -- base strictly between 0 and 1: the numerator of the formula is
    -- non-positive and so is log base, making the quotient non-negative
    have hnum : s * (b - 1) ≤ 0 := mul_nonpos_iff.mpr (Or.inl ⟨hs, by linarith⟩)
    have hq : s * (b - 1) / (w * b) ≤ 0 :=
      div_nonpos_iff.mpr (Or.inr ⟨hnum, le_of_lt hwb⟩)
    have hlogX : 0 ≤ Real.log (1 - s * (b - 1) / (w * b)) :=
      Real.log_nonneg (by linarith)
    have hlogb : Real.log b < 0 := Real.log_neg hbpos hblt
    exact div_nonneg_iff.mpr (Or.inr ⟨by linarith, le_of_lt hlogb⟩)
  · -- base above 1: the log argument lies in (0, 1], so the negated log and
    -- log base are both non-negative
    have hnum : 0 ≤ s * (b - 1) := mul_nonneg hs (by linarith)
    have hq : 0 ≤ s * (b - 1) / (w * b) := div_nonneg hnum (le_of_lt hwb)
    have hqlt : s * (b - 1) / (w * b) < 1 := (div_lt_one hwb).mpr hnd
    have hlogX : Real.log (1 - s * (b - 1) / (w * b)) ≤ 0 :=
      Real.log_nonpos (by linarith) (by linarith)
    have hlogb : 0 < Real.log b := Real.log_pos hbgt
    exact div_nonneg (by linarith) (le_of_lt hlogb)

/-- C10: for a non-negative lump sum and withdrawal (and a well-formed
inflation divisor), `savingsPayoutDuration` never returns a negative `years` or
`months`, and `months` stays below 12, whether or not the gate trips. -/
theorem claim_C10 (s w i f : ℝ) (hs : 0 ≤ s) (hw : 0 ≤ w) (hf : 1 + f ≠ 0) :
    0 ≤ (savingsPayoutDuration s w i f).years ∧
    0 ≤ (savingsPayoutDuration s w i f).months ∧
    (savingsPayoutDuration s w i f).months ≤ 11 := by
  by_cases hg : payoutGate s w i f
  · rw [savingsPayoutDuration_of_gate s w i f hg]
    exact ⟨le_refl 0, le_refl 0, by norm_num⟩
  · rw [savingsPayoutDuration_of_not_gate s w i f hg]
    have hY : 0 ≤ durationYears s w i f := durationYears_nonneg s w i f hs hw hg
    have hfloor : 0 ≤ ⌊durationYears s w i f⌋ := Int.floor_nonneg.mpr hY
    have hround : 0 ≤ round (durationYears s w i f * 12) := by
      rw [round_eq]
      exact Int.floor_nonneg.mpr (by nlinarith)
    refine ⟨hfloor, Int.tmod_nonneg 12 hround, ?_⟩
    show Int.tmod (round (durationYears s w i f * 12)) 12 ≤ 11
    have := Int.tmod_lt_of_pos (round (durationYears s w i f * 12))
      (show (0 : ℤ) < 12 from by norm_num)
    omega

/-- Witness for C10 at a gate-passing input (base 2). -/
theorem claim_C10_witness :
    0 ≤ (savingsPayoutDuration 100 100 1 0).years ∧
    0 ≤ (savingsPayoutDuration 100 100 1 0).months ∧
    (savingsPayoutDuration 100 100 1 0).months ≤ 11 :=
  claim_C10 100 100 1 0 (by norm_num) (by norm_num) (by norm_num)

/-- Strict monotonicity of the exact duration: for a positive balance and a
positive base distinct from 1, increasing the withdrawal past a feasible one
strictly decreases the exact logarithmic duration. -/
lemma durationYears_strict_anti (s i f w1 w2 : ℝ) (hs : 0 < s) (hw1 : 0 < w1)
    (h12 : w1 < w2) (hb0 : 0 < (1 + i) / (1 + f)) (hb1 : (1 + i) / (1 + f) ≠ 1)
    (hfeas : s * ((1 + i) / (1 + f) - 1) < w1 * ((1 + i) / (1 + f))) :
    durationYears s w2 i f < durationYears s w1 i f := by
  set b := (1 + i) / (1 + f) with hbdef
  have hd1 : 0 < w1 * b := mul_pos hw1 hb0
  have hd2 : 0 < w2 * b := mul_pos (lt_trans hw1 h12) hb0
  have hdd : w1 * b < w2 * b := (mul_lt_mul_right hb0).mpr h12
  have hY1 : durationYears s w1 i f =
      (-1 * Real.log (1 - s * (b - 1) / (w1 * b))) / Real.log b := rfl
  have hY2 : durationYears s w2 i f =
      (-1 * Real.log (1 - s * (b - 1) / (w2 * b))) / Real.log b := rfl
  rw [hY1, hY2]
  rcases lt_or_gt_of_ne hb1 with hblt | hbgt
  · -- base in (0, 1): both numerators of the quotients are negative and the
    -- shared denominator log base is negative
    have hnum : s * (b - 1) < 0 := mul_neg_of_pos_of_neg hs (by linarith)
    have hqq : s * (b - 1) / (w1 * b) < s * (b - 1) / (w2 * b) := by
      rw [div_lt_div_iff₀ hd1 hd2]
      exact mul_lt_mul_of_neg_left hdd hnum
    have hq2 : s * (b - 1) / (w2 * b) < 0 := div_neg_of_neg_of_pos hnum hd2
    have hlog : Real.log (1 - s * (b - 1) / (w2 * b)) <
        Real.log (1 - s * (b - 1) / (w1 * b)) :=
      Real.log_lt_log (by linarith) (by linarith)
    rw [div_lt_div_right_of_neg (Real.log_neg hb0 hblt)]
    linarith
  · -- base above 1: the log arguments lie in (0, 1) and increase with the
    -- withdrawal, while log base is positive
    have hnum : 0 < s * (b - 1) := mul_pos hs (by linarith)
    have hqq : s * (b - 1) / (w2 * b) < s * (b - 1) / (w1 * b) :=
      (div_lt_div_iff_of_pos_left hnum hd2 hd1).mpr hdd
    have hq1 : s * (b - 1) / (w1 * b) < 1 := (div_lt_one hd1).mpr hfeas
    have hq2 : 0 < s * (b - 1) / (w2 * b) := div_pos hnum hd2
    have hlog : Real.log (1 - s * (b - 1) / (w1 * b)) <
        Real.log (1 - s * (b - 1) / (w2 * b)) :=
      Real.log_lt_log (by linarith) (by linarith)
    rw [div_lt_div_iff_of_pos_right (Real.log_pos hbgt)]
    linarith

/-- The spec's concrete feasible example: `payoutDuration(100000, 5000, 0.05,
0.02)` has a strictly positive `years` field. -/
lemma spd_example_years_pos :
    0 < (savingsPayoutDuration 100000 5000 (5 / 100) (2 / 100)).years := by
  have hgate : ¬ payoutGate 100000 5000 (5 / 100) (2 / 100) := by
    unfold payoutGate
    norm_num
  rw [savingsPayoutDuration_of_not_gate _ _ _ _ hgate]
  show (0 : ℤ) < ⌊durationYears 100000 5000 (5 / 100) (2 / 100)⌋
  have h1 : (1 : ℝ) ≤ durationYears 100000 5000 (5 / 100) (2 / 100) := by
    have hY : durationYears 100000 5000 (5 / 100) (2 / 100) =
        (-1 * Real.log (1 - 100000 * ((1 + 5 / 100) / (1 + 2 / 100) - 1) /
          (5000 * ((1 + 5 / 100) / (1 + 2 / 100))))) /
          Real.log ((1 + 5 / 100) / (1 + 2 / 100)) := rfl
    have harg : (1 : ℝ) - 100000 * ((1 + 5 / 100) / (1 + 2 / 100) - 1) /
        (5000 * ((1 + 5 / 100) / (1 + 2 / 100))) = 3 / 7 := by norm_num
    have hbase : ((1 : ℝ) + 5 / 100) / (1 + 2 / 100) = 35 / 34 := by norm_num
    rw [hY, harg, hbase]
    have hlog : (-1 : ℝ) * Real.log (3 / 7) = Real.log (7 / 3) := by
      rw [show (3 / 7 : ℝ) = (7 / 3)⁻¹ from by norm_num, Real.log_inv]
      ring
    rw [hlog]
    exact (one_le_div (Real.log_pos (by norm_num))).mpr
      (Real.log_le_log (by norm_num) (by norm_num))
  exact lt_of_lt_of_le one_pos (Int.le_floor.mpr (by exact_mod_cast h1))

/-- C2 (amended): with the other arguments fixed (positive balance, positive
base distinct from 1), increasing a feasible positive withdrawal strictly
decreases the exact logarithmic duration and weakly decreases the returned
whole-years field (rounding to whole years and months can absorb a strict
decrease); and the spec's example `payoutDuration(100000, 5000, 0.05, 0.02)`
has strictly positive years. -/
theorem claim_C2_amended (s i f w1 w2 : ℝ) (hs : 0 < s) (hw1 : 0 < w1)
    (h12 : w1 < w2) (hb0 : 0 < (1 + i) / (1 + f)) (hb1 : (1 + i) / (1 + f) ≠ 1)
    (hfeas : s * ((1 + i) / (1 + f) - 1) < w1 * ((1 + i) / (1 + f))) :
    durationYears s w2 i f < durationYears s w1 i f ∧
    (savingsPayoutDuration s w2 i f).years ≤ (savingsPayoutDuration s w1 i f).years ∧
    0 < (savingsPayoutDuration 100000 5000 (5 / 100) (2 / 100)).years := by
  have hanti := durationYears_strict_anti s i f w1 w2 hs hw1 h12 hb0 hb1 hfeas
  have hg1 : ¬ payoutGate s w1 i f := by
    simp only [payoutGate, ge_iff_le, not_or, not_le]
    exact ⟨ne_of_gt (mul_pos hw1 hb0), hb0, hb1, hfeas⟩
  have hg2 : ¬ payoutGate s w2 i f := by
    simp only [payoutGate, ge_iff_le, not_or, not_le]
    have hw2 : 0 < w2 := lt_trans hw1 h12
    refine ⟨ne_of_gt (mul_pos hw2 hb0), hb0, hb1, lt_of_lt_of_le hfeas ?_⟩
    exact le_of_lt ((mul_lt_mul_right hb0).mpr h12)
  refine ⟨hanti, ?_, spd_example_years_pos⟩
  rw [savingsPayoutDuration_of_not_gate s w1 i f hg1,
    savingsPayoutDuration_of_not_gate s w2 i f hg2]
  exact Int.floor_mono (le_of_lt hanti)

/-- Witness for C2 (amended) with savings 100, 100% interest, 0% inflation
(base 2) and withdrawals 100 < 200. -/
theorem claim_C2_witness :
    durationYears 100 200 1 0 < durationYears 100 100 1 0 ∧
    (savingsPayoutDuration 100 200 1 0).years ≤ (savingsPayoutDuration 100 100 1 0).years ∧
    0 < (savingsPayoutDuration 100000 5000 (5 / 100) (2 / 100)).years :=
  claim_C2_amended 100 1 0 100 200 (by norm_num) (by norm_num) (by norm_num)
    (by norm_num) (by norm_num) (by norm_num)

/-- Counterexample to C2 as stated: with savings 100, 100% interest and 0%
inflation (base 2), the withdrawals `50 / (1 - 2^(-49/48)) < 100` have exact
durations 49/48 and 1 years, yet both return the same non-sentinel record
`{years: 1, months: 0}` — the discretized duration does not strictly
decrease. -/
theorem claim_C2_counterexample :
    50 / (1 - (2 : ℝ) ^ (-(49 : ℝ) / 48)) < 100 ∧
    savingsPayoutDuration 100 (50 / (1 - (2 : ℝ) ^ (-(49 : ℝ) / 48))) 1 0 = ⟨1, 0⟩ ∧
    savingsPayoutDuration 100 100 1 0 = ⟨1, 0⟩ ∧
    (⟨1, 0⟩ : Duration) ≠ (⟨0, 0⟩ : Duration) := by
  set t := (2 : ℝ) ^ (-(49 : ℝ) / 48) with ht
  have ht0 : 0 < t := Real.rpow_pos_of_pos (by norm_num) _
  have ht12 : t < 1 / 2 := by
    have h1 : t < (2 : ℝ) ^ (-1 : ℝ) :=
      (Real.rpow_lt_rpow_left_iff (by norm_num : (1 : ℝ) < 2)).mpr (by norm_num)
    rwa [Real.rpow_neg_one, show ((2 : ℝ)⁻¹ = 1 / 2) from by norm_num] at h1
  have h1t : (0 : ℝ) < 1 - t := by linarith
  have hb : ((1 : ℝ) + 1) / (1 + 0) = 2 := by norm_num
  have hlog2 : Real.log 2 ≠ 0 := ne_of_gt (Real.log_pos (by norm_num))
  constructor
  · rw [div_lt_iff₀ h1t]
    linarith
  refine ⟨?_, ?_, ?_⟩
  · -- withdrawal 50 / (1 - t): exact duration 49/48, record {1, 0}
    have hgate : ¬ payoutGate 100 (50 / (1 - t)) 1 0 := by
      simp only [payoutGate, ge_iff_le, not_or, not_le, hb]
      have hwpos : 0 < 50 / (1 - t) := div_pos (by norm_num) h1t
      refine ⟨ne_of_gt (by linarith), by norm_num, by norm_num, ?_⟩
      have e1 : 50 / (1 - t) * 2 = 100 / (1 - t) := by ring
      rw [e1, lt_div_iff₀ h1t]
      nlinarith
    rw [savingsPayoutDuration_of_not_gate _ _ _ _ hgate]
    have hY : durationYears 100 (50 / (1 - t)) 1 0 =
        (-1 * Real.log (1 - 100 * ((1 + 1) / (1 + 0) - 1) /
          (50 / (1 - t) * ((1 + 1) / (1 + 0))))) / Real.log ((1 + 1) / (1 + 0)) := rfl
    have harg : (1 : ℝ) - 100 * ((1 + 1) / (1 + 0) - 1) /
        (50 / (1 - t) * ((1 + 1) / (1 + 0))) = t := by
      rw [hb]
      have hne : (1 : ℝ) - t ≠ 0 := ne_of_gt h1t
      field_simp
      ring
    have hval : durationYears 100 (50 / (1 - t)) 1 0 = 49 / 48 := by
      rw [hY, harg, hb, ht, Real.log_rpow (by norm_num : (0 : ℝ) < 2)]
      field_simp
      ring
    rw [hval]
    have hfl : ⌊(49 / 48 : ℝ)⌋ = 1 := by
      rw [Int.floor_eq_iff]
      norm_num
    have hrd : round ((49 / 48 : ℝ) * 12) = 12 := by
      rw [show (49 / 48 : ℝ) * 12 = 49 / 4 from by norm_num, round_eq, Int.floor_eq_iff]
      norm_num
    rw [hfl, hrd, Int.tmod_self]
  · -- withdrawal 100: exact duration 1, record {1, 0}
    have hgate2 : ¬ payoutGate 100 100 1 0 := by
      unfold payoutGate
      norm_num
    rw [savingsPayoutDuration_of_not_gate _ _ _ _ hgate2]
    have hY2 : durationYears 100 100 1 0 = 1 := by
      have hYd : durationYears 100 100 1 0 =
          (-1 * Real.log (1 - 100 * ((1 + 1) / (1 + 0) - 1) /
            (100 * ((1 + 1) / (1 + 0))))) / Real.log ((1 + 1) / (1 + 0)) := rfl
      have harg2 : (1 : ℝ) - 100 * ((1 + 1) / (1 + 0) - 1) /
          (100 * ((1 + 1) / (1 + 0))) = 2⁻¹ := by norm_num
      rw [hYd, harg2, hb, Real.log_inv]
      field_simp
    rw [hY2]
    have hrd2 : round ((1 : ℝ) * 12) = 12 := by
      rw [one_mul, round_eq, Int.floor_eq_iff]
      norm_num
    rw [Int.floor_one, hrd2, Int.tmod_self]
  · intro h
    exact absurd (congrArg Duration.years h) (by norm_num)

/-- Counterexample to C3 as stated: savings `200 (1 - 2^(-1/48))`, withdrawal
100, 100% interest, 0% inflation pass the feasibility gate (none of the four
conditions holds), yet the exact duration 1/48 year floors and rounds to
`{years: 0, months: 0}` — the sentinel is returned without the gate. -/
theorem claim_C3_counterexample :
    ¬ payoutGate (200 * (1 - (2 : ℝ) ^ (-(1 : ℝ) / 48))) 100 1 0 ∧
    savingsPayoutDuration (200 * (1 - (2 : ℝ) ^ (-(1 : ℝ) / 48))) 100 1 0 = ⟨0, 0⟩ := by
  set t := (2 : ℝ) ^ (-(1 : ℝ) / 48) with ht
  have ht0 : 0 < t := Real.rpow_pos_of_pos (by norm_num) _
  have ht1 : t < 1 := Real.rpow_lt_one_of_one_lt_of_neg (by norm_num) (by norm_num)
  have hb : ((1 : ℝ) + 1) / (1 + 0) = 2 := by norm_num
  have hgate : ¬ payoutGate (200 * (1 - t)) 100 1 0 := by
    simp only [payoutGate, ge_iff_le, not_or, not_le, hb]
    refine ⟨by norm_num, by norm_num, by norm_num, ?_⟩
    nlinarith
  refine ⟨hgate, ?_⟩
  rw [savingsPayoutDuration_of_not_gate _ _ _ _ hgate]
  have hY : durationYears (200 * (1 - t)) 100 1 0 =
      (-1 * Real.log (1 - 200 * (1 - t) * ((1 + 1) / (1 + 0) - 1) /
        (100 * ((1 + 1) / (1 + 0))))) / Real.log ((1 + 1) / (1 + 0)) := rfl
  have harg : (1 : ℝ) - 200 * (1 - t) * ((1 + 1) / (1 + 0) - 1) /
      (100 * ((1 + 1) / (1 + 0))) = t := by
    rw [hb]
    ring
  have hval : durationYears (200 * (1 - t)) 100 1 0 = 1 / 48 := by
    rw [hY, harg, hb, ht, Real.log_rpow (by norm_num : (0 : ℝ) < 2)]
    have hlog2 : Real.log 2 ≠ 0 := ne_of_gt (Real.log_pos (by norm_num))
    field_simp
    ring
  rw [hval]
  have hfl : ⌊(1 / 48 : ℝ)⌋ = 0 := by
    rw [Int.floor_eq_iff]
    norm_num
  have hrd : round ((1 / 48 : ℝ) * 12) = 0 := by
    rw [show (1 / 48 : ℝ) * 12 = 1 / 4 from by norm_num, round_eq, Int.floor_eq_iff]
    norm_num
  rw [hfl, hrd]
  rfl

/-- For non-negative integer indices `a ≤ n`, the closed-form
`geometricSeries` equals the literal sum of powers from `a` to `n`. -/
lemma geometricSeries_eq_sum (r : ℝ) (a n : ℕ) (h : a ≤ n) :
    geometricSeries (a : ℤ) r (n : ℤ) = ∑ k ∈ Finset.Icc a n, r ^ k := by
  unfold geometricSeries
  split_ifs with hr ha
  · subst hr
    simp only [one_pow, Finset.sum_const, nsmul_eq_mul, mul_one, Nat.card_Icc]
    rw [Nat.cast_sub (by omega)]
    push_cast
    ring
  · rw [← Nat.Ico_succ_right, Finset.sum_Ico_eq_sub _ (by omega : a ≤ n + 1)]
    rw [show ((n : ℤ) + 1) = ((n + 1 : ℕ) : ℤ) from by push_cast; ring]
    rw [zpow_natCast, zpow_natCast, geom_sum_eq hr, geom_sum_eq hr]
  · have ha0 : a = 0 := by omega
    subst ha0
    rw [← Nat.Ico_succ_right, Finset.sum_Ico_eq_sub _ (by omega : 0 ≤ n + 1)]
    simp only [Finset.range_zero, Finset.sum_empty, sub_zero]
    rw [show ((n : ℤ) + 1) = ((n + 1 : ℕ) : ℤ) from by push_cast; ring]
    rw [zpow_natCast, geom_sum_eq hr]

/-- C9 (amended): for non-negative integer indices `a ≤ n`, `geometricSeries a
r n` is the sum of powers of `r` from `a` through `n` inclusive; when `r = 1`
it returns `n - a + 1`; and for `a > 0`, `r ≠ 1` it equals the total sum from 0
to `n` minus the excluded sum from 0 to `a-1`.  (Negative start indices do not
produce the sum of the corresponding negative powers.) -/
theorem claim_C9_amended (r : ℝ) (a n : ℕ) (h : a ≤ n) :
    geometricSeries (a : ℤ) r (n : ℤ) = ∑ k ∈ Finset.Icc a n, r ^ k ∧
    geometricSeries (a : ℤ) 1 (n : ℤ) = (n : ℝ) - (a : ℝ) + 1 ∧
    (0 < a → r ≠ 1 →
      geometricSeries (a : ℤ) r (n : ℤ) =
        geometricSeries 0 r (n : ℤ) - geometricSeries 0 r ((a : ℤ) - 1)) := by
  refine ⟨geometricSeries_eq_sum r a n h, ?_, ?_⟩
  · unfold geometricSeries
    rw [if_pos rfl]
    push_cast
    ring
  · intro ha hr
    unfold geometricSeries
    rw [if_neg hr, if_neg hr, if_neg hr]
    simp only [if_pos (show (0 : ℤ) < (a : ℤ) from by exact_mod_cast ha),
      if_neg (lt_irrefl (0 : ℤ))]
    rw [show ((a : ℤ) - 1 + 1) = (a : ℤ) from by ring]
    ring

/-- Witness for C9 (amended) at the source's documented example
`geometricSeries(2, 2, 4) = 28`. -/
theorem claim_C9_witness :
    geometricSeries ((2 : ℕ) : ℤ) 2 ((4 : ℕ) : ℤ) = ∑ k ∈ Finset.Icc 2 4, (2 : ℝ) ^ k ∧
    geometricSeries ((2 : ℕ) : ℤ) 1 ((4 : ℕ) : ℤ) = ((4 : ℕ) : ℝ) - ((2 : ℕ) : ℝ) + 1 ∧
    (0 < 2 → (2 : ℝ) ≠ 1 →
      geometricSeries ((2 : ℕ) : ℤ) 2 ((4 : ℕ) : ℤ) =
        geometricSeries 0 2 ((4 : ℕ) : ℤ) - geometricSeries 0 2 (((2 : ℕ) : ℤ) - 1)) :=
  claim_C9_amended 2 2 4 (by norm_num)

/-- Counterexample to C9 as stated: at the negative start index `a = -1` with
ratio 2 and end index 0, the source's closed form gives 1, while the sum of
powers of 2 from -1 to 0 is `2⁻¹ + 1 = 3/2`. -/
theorem claim_C9_counterexample :
    geometricSeries (-1) 2 0 = 1 ∧
    (∑ k ∈ Finset.Icc (-1 : ℤ) 0, (2 : ℝ) ^ k) = 3 / 2 ∧
    (1 : ℝ) ≠ 3 / 2 := by
  refine ⟨?_, ?_, by norm_num⟩
  · unfold geometricSeries
    norm_num
  · rw [show Finset.Icc (-1 : ℤ) 0 = {-1, 0} from by decide]
    rw [Finset.sum_pair (by norm_num : (-1 : ℤ) ≠ 0)]
    norm_num

end RetirementCalc

end
